import Mathlib

/-!
Shallow embedding of the audiobook playback coordinator of this repository:
the `AudioService` class in `src/frontend/services/audioService.ts`, the
zustand store (`useAudioStore`) in the audio store module, the
`FileService.getAllBooks` mapper, and the player screen's `handlePlayPause`
handler.

Modelling conventions:
- The mutable zustand store becomes an explicit `AudioState` record threaded
  through every operation inside a `World` that also records the observable
  effect traces: engine calls issued to `expo-av` (`engineCalls`), progress
  POSTs attempted (`saveAttempts`) and succeeded (`remotePosts`), the
  `AsyncStorage` cache (`localCache`), and whether the autosave interval is
  armed (`autoSaveOn`).
- Remote and local I/O outcomes are explicit boolean/`Except` inputs: a
  `false` / `Except.error` input models the corresponding `await` throwing.
- `loadAndPlayAudio` is split at its `Audio.Sound.createAsync` suspension
  point into `loadStart` (the synchronous part up to and including the
  missing-file guard) and `loadResolve` (the continuation applied when the
  load resolves), so that interleavings of two overlapping loads can be
  expressed; `loadAndPlayAudio` itself is the uninterrupted composition.
-/

namespace AudioApp

/-- One playable audio file (`AudioFile` in the store module). -/
structure AudioFile where
  uri : String
  name : String
  duration : Int
  deriving DecidableEq, Repr

/-- A book record (`Book` in the store module). -/
structure Book where
  id : String
  title : String
  path : String
  files : List AudioFile
  totalDuration : Int
  is_series : Bool
  series_name : Option String
  currentFileIndex : Nat
  currentPosition : Int
  deriving DecidableEq, Repr, Inhabited

/-- A loaded `expo-av` sound resource, as the coordinator observes it:
its source uri, current engine-side position, duration, whether it is
playing, and whether it is still loaded. -/
structure Sound where
  uri : String
  position : Int
  duration : Int
  playing : Bool
  loaded : Bool
  deriving DecidableEq, Repr

/-- The data fields of the zustand `AudioState` store. -/
structure AudioState where
  sound : Option Sound
  isPlaying : Bool
  currentBook : Option Book
  currentPosition : Int
  duration : Int
  isLoading : Bool
  delayMinutes : Int
  delayTimeoutId : Option Nat
  isDelayActive : Bool
  delayStartTime : Option Int
  deriving DecidableEq, Repr

/-- A call issued to the audio engine (`expo-av`). -/
inductive EngineCall where
  | create (uri : String) (positionMillis : Int)
  | play
  | pause
  | seek (positionMillis : Int)
  | unload
  deriving DecidableEq, Repr

/-- The body of a `POST /api/progress` request issued by `saveProgress`. -/
structure ProgressPost where
  book_id : String
  position : Int
  duration : Int
  current_file_index : Nat
  deriving DecidableEq, Repr

/-- The JSON value written to `AsyncStorage` under `book_progress_{id}`. -/
structure LocalProgress where
  position : Int
  fileIndex : Nat
  timestamp : Int
  deriving DecidableEq, Repr

/-- The payload of a successful `GET /api/progress/{book_id}` response. -/
structure ProgressData where
  position : Int
  current_file_index : Nat
  duration : Int
  deriving DecidableEq, Repr

/-- A row of the `GET /api/books` response used by `FileService.getAllBooks`. -/
structure BackendBook where
  id : String
  title : String
  path : String
  duration : Int
  is_series : Bool
  series_name : Option String
  deriving DecidableEq, Repr

/-- The whole observable world: store state plus effect traces. -/
structure World where
  store : AudioState
  engineCalls : List EngineCall
  remotePosts : List ProgressPost
  saveAttempts : List ProgressPost
  localCache : List (String × LocalProgress)
  autoSaveOn : Bool
  deriving DecidableEq, Repr

/-- `sound.unloadAsync()`: the resource is no longer loaded nor playing. -/
def unloadSound (s : Sound) : Sound :=
  { s with playing := false, loaded := false }

/-- The synchronous part of `AudioService.loadAndPlayAudio` up to the
`Audio.Sound.createAsync` suspension point: sets `isLoading := true`,
unloads an already-present sound, and runs the missing-file guard
(`if (!currentFile) return`, whose early return hits the `finally` block
that resets `isLoading`).  Returns the world together with `some file`
when the run is now suspended waiting for `createAsync`, or `none` when
the guard returned early. -/
def loadStart (w : World) (book : Book) : World × Option AudioFile :=
  let w1 : World := { w with store := { w.store with isLoading := true } }
  let w2 : World :=
    match w1.store.sound with
    | some s =>
        { w1 with
          store := { w1.store with sound := some (unloadSound s) },
          engineCalls := EngineCall.unload :: w1.engineCalls }
    | none => w1
  match book.files[book.currentFileIndex]? with
  | none => ({ w2 with store := { w2.store with isLoading := false } }, none)
  | some f => (w2, some f)

/-- The continuation of `AudioService.loadAndPlayAudio` run when its
`createAsync` resolves: the created sound (at `positionMillis :=
startPosition`, `shouldPlay := false`) is stored via `setSound`, the book
via `setCurrentBook`, then `playAsync` is awaited, `setIsPlaying(true)`
runs, the autosave interval is started, and the `finally` block resets
`isLoading`.  It applies its result unconditionally: there is no
generation check. -/
def loadResolve (w : World) (book : Book) (f : AudioFile) (startPosition : Int) : World :=
  let snd : Sound :=
    { uri := f.uri, position := startPosition, duration := f.duration,
      playing := false, loaded := true }
  let w1 : World :=
    { w with
      engineCalls := EngineCall.create f.uri startPosition :: w.engineCalls,
      store := { w.store with sound := some snd } }
  let w2 : World := { w1 with store := { w1.store with currentBook := some book } }
  let w3 : World :=
    { w2 with
      engineCalls := EngineCall.play :: w2.engineCalls,
      store := { w2.store with sound := some { snd with playing := true } } }
  let w4 : World :=
    { w3 with store := { w3.store with isPlaying := true }, autoSaveOn := true }
  { w4 with store := { w4.store with isLoading := false } }

/-- `AudioService.loadAndPlayAudio` run without interruption: `loadStart`
followed, when a file was found, by `loadResolve`. -/
def loadAndPlayAudio (w : World) (book : Book) (startPosition : Int) : World :=
  match loadStart w book with
  | (w1, none) => w1
  | (w1, some f) => loadResolve w1 book f startPosition

/-- `AudioService.saveProgress`.  `remoteOk` models whether the
`axios.post` succeeds, `localOk` whether the subsequent
`AsyncStorage.setItem` succeeds, `now` is `Date.now()`.  Both writes sit
in one `try` block: when the remote POST throws, the local write is never
reached and the `catch` only logs. -/
def saveProgress (w : World) (remoteOk localOk : Bool) (now : Int) : World :=
  match w.store.currentBook with
  | none => w
  | some book =>
      let post : ProgressPost :=
        { book_id := book.id, position := w.store.currentPosition,
          duration := w.store.duration,
          current_file_index := book.currentFileIndex }
      let w1 : World := { w with saveAttempts := post :: w.saveAttempts }
      if remoteOk then
        let w2 : World := { w1 with remotePosts := post :: w1.remotePosts }
        if localOk then
          { w2 with
            localCache :=
              ("book_progress_" ++ book.id,
                { position := w.store.currentPosition,
                  fileIndex := book.currentFileIndex,
                  timestamp := now }) :: w2.localCache }
        else w2
      else w1

/-- `AudioService.loadProgress(bookId)`: `try { return (await
axios.get(...)).data } catch { return null }`.  Its only input is the
remote response (an `Except.error` models the request throwing, which is
also how an absent record / 404 surfaces in axios); the local cache is
never consulted. -/
def loadProgress (remote : Except Unit ProgressData) : Option ProgressData :=
  match remote with
  | Except.ok d => some d
  | Except.error _ => none

/-- `AudioService.seek(milliseconds)`: relative seek, clamped with
`Math.max(0, Math.min(currentPosition + milliseconds, duration))`;
no-op when no sound is loaded. -/
def seek (w : World) (milliseconds : Int) : World :=
  match w.store.sound with
  | none => w
  | some s =>
      let newPosition : Int :=
        max 0 (min (w.store.currentPosition + milliseconds) w.store.duration)
      { w with
        store := { w.store with sound := some { s with position := newPosition } },
        engineCalls := EngineCall.seek newPosition :: w.engineCalls }

/-- `AudioService.seekTo(position)`: absolute seek, passed to
`sound.setPositionAsync` as-is; no-op when no sound is loaded. -/
def seekTo (w : World) (position : Int) : World :=
  match w.store.sound with
  | none => w
  | some s =>
      { w with
        store := { w.store with sound := some { s with position := position } },
        engineCalls := EngineCall.seek position :: w.engineCalls }

/-- `AudioService.playPause`: no-op when no sound is loaded; when
`isPlaying` is set, awaits `pauseAsync` then `saveProgress`; otherwise
awaits `playAsync`.  The store's `isPlaying` flag itself is only updated
later by the status callback. -/
def playPause (w : World) (remoteOk localOk : Bool) (now : Int) : World :=
  match w.store.sound with
  | none => w
  | some s =>
      if w.store.isPlaying then
        let w1 : World :=
          { w with
            store := { w.store with sound := some { s with playing := false } },
            engineCalls := EngineCall.pause :: w.engineCalls }
        saveProgress w1 remoteOk localOk now
      else
        { w with
          store := { w.store with sound := some { s with playing := true } },
          engineCalls := EngineCall.play :: w.engineCalls }

/-- `AudioService.cancelDelayedPlayback`: clears the pending timeout if
any, then clears the delay flags. -/
def cancelDelayedPlayback (w : World) : World :=
  let w1 : World :=
    if w.store.delayTimeoutId.isSome then
      { w with store := { w.store with delayTimeoutId := none } }
    else w
  { w1 with
    store := { w1.store with isDelayActive := false, delayStartTime := none } }

/-- The player screen's `handlePlayPause`: while a delay is active it
calls `cancelDelayedPlayback` and returns; otherwise it calls
`AudioService.playPause`. -/
def handlePlayPause (w : World) (remoteOk localOk : Bool) (now : Int) : World :=
  if w.store.isDelayActive then cancelDelayedPlayback w
  else playPause w remoteOk localOk now

/-- `AudioService.startDelayedPlayback(book, delayMinutes)`: clears any
existing timeout, sets `isDelayActive := true` and `delayStartTime :=
Date.now()`, and arms a fresh `setTimeout` whose handle (`newId`) is
stored.  It touches neither the loaded sound nor `isPlaying`. -/
def startDelayedPlayback (w : World) (book : Book) (delayMinutes : Int)
    (now : Int) (newId : Nat) : World :=
  let w1 : World :=
    if w.store.delayTimeoutId.isSome then
      { w with store := { w.store with delayTimeoutId := none } }
    else w
  let w2 : World :=
    { w1 with
      store := { w1.store with isDelayActive := true, delayStartTime := some now } }
  { w2 with store := { w2.store with delayTimeoutId := some newId } }

/-- `AudioService.handleTrackEnd`: on a non-last file, re-invokes the
load path on the book with the incremented file index at position 0; on
the last file, sets `isPlaying := false` and performs a progress save.
The length comparison is the JS `currentFileIndex < files.length - 1`,
taken over the integers. -/
def handleTrackEnd (w : World) (remoteOk localOk : Bool) (now : Int) : World :=
  match w.store.currentBook with
  | none => w
  | some book =>
      if (book.currentFileIndex : Int) < (book.files.length : Int) - 1 then
        loadAndPlayAudio w { book with currentFileIndex := book.currentFileIndex + 1 } 0
      else
        saveProgress { w with store := { w.store with isPlaying := false } }
          remoteOk localOk now

/-- An `AVPlaybackStatus` snapshot in its loaded form. -/
structure AVStatus where
  isLoaded : Bool
  positionMillis : Int
  durationMillis : Option Int
  isPlaying : Bool
  didJustFinish : Bool
  isLooping : Bool
  deriving DecidableEq, Repr

/-- `AudioService.onPlaybackStatusUpdate`: ignores unloaded snapshots,
copies position/duration/isPlaying into the store, and on
`didJustFinish && !isLooping` runs `handleTrackEnd`. -/
def onPlaybackStatusUpdate (w : World) (st : AVStatus)
    (remoteOk localOk : Bool) (now : Int) : World :=
  if !st.isLoaded then w
  else
    let w1 : World :=
      { w with
        store :=
          { w.store with
            currentPosition := st.positionMillis,
            duration := st.durationMillis.getD 0,
            isPlaying := st.isPlaying } }
    if st.didJustFinish && !st.isLooping then handleTrackEnd w1 remoteOk localOk now
    else w1

/-- `AudioService.stopAutoSave`: clears the interval when set. -/
def stopAutoSave (w : World) : World :=
  if w.autoSaveOn then { w with autoSaveOn := false } else w

/-- The store's `cleanup` action: unloads the sound if present, clears a
pending timeout if present, then resets `sound`, `isPlaying`,
`delayTimeoutId`, `isDelayActive`, `delayStartTime`.  It does not touch
`currentBook`, `currentPosition` or `duration`. -/
def storeCleanup (w : World) : World :=
  let w1 : World :=
    match w.store.sound with
    | some s =>
        { w with
          store := { w.store with sound := some (unloadSound s) },
          engineCalls := EngineCall.unload :: w.engineCalls }
    | none => w
  { w1 with
    store :=
      { w1.store with
        sound := none, isPlaying := false, delayTimeoutId := none,
        isDelayActive := false, delayStartTime := none } }

/-- `AudioService.cleanup`: `stopAutoSave`, one `saveProgress`, then the
store's `cleanup` action. -/
def cleanup (w : World) (remoteOk localOk : Bool) (now : Int) : World :=
  storeCleanup (saveProgress (stopAutoSave w) remoteOk localOk now)

/-- `FileService.getAllBooks`: maps each backend row to a `Book` with an
empty `files` array and indices reset to 0; an `Except.error` input
models the request throwing, in which case the `catch` returns `[]`. -/
def getAllBooks (resp : Except Unit (List BackendBook)) : List Book :=
  match resp with
  | Except.error _ => []
  | Except.ok rows =>
      rows.map fun b =>
        { id := b.id, title := b.title, path := b.path, files := [],
          totalDuration := b.duration, is_series := b.is_series,
          series_name := b.series_name, currentFileIndex := 0,
          currentPosition := 0 }

/-- The spec's `clamp(x, lo, hi)`. -/
def clampInt (x lo hi : Int) : Int := max lo (min x hi)

/-! ## Concrete states used by counterexamples and witnesses -/

/-- Demo first segment, duration 1000ms. -/
def fileA : AudioFile := { uri := "fileA.mp3", name := "A", duration := 1000 }

/-- Demo second segment, duration 500ms. -/
def fileB : AudioFile := { uri := "fileB.mp3", name := "B", duration := 500 }

/-- Demo segment of another book. -/
def fileC : AudioFile := { uri := "fileC.mp3", name := "C", duration := 700 }

/-- Demo two-segment book at its first segment. -/
def bookAB : Book :=
  { id := "b1", title := "Demo", path := "p1", files := [fileA, fileB],
    totalDuration := 1500, is_series := false, series_name := none,
    currentFileIndex := 0, currentPosition := 0 }

/-- `bookAB` at its last segment. -/
def bookABlast : Book := { bookAB with currentFileIndex := 1 }

/-- A second demo book. -/
def bookY : Book :=
  { id := "b2", title := "Other", path := "p2", files := [fileC],
    totalDuration := 700, is_series := false, series_name := none,
    currentFileIndex := 0, currentPosition := 0 }

/-- The first segment's sound, loaded, at 200ms, playing. -/
def soundA : Sound :=
  { uri := "fileA.mp3", position := 200, duration := 1000,
    playing := true, loaded := true }

/-- The last segment's sound, loaded, at its end. -/
def soundB : Sound :=
  { uri := "fileB.mp3", position := 500, duration := 500,
    playing := false, loaded := true }

/-- The store's initial state. -/
def emptyState : AudioState :=
  { sound := none, isPlaying := false, currentBook := none,
    currentPosition := 0, duration := 0, isLoading := false,
    delayMinutes := 5, delayTimeoutId := none, isDelayActive := false,
    delayStartTime := none }

/-- A world with the initial store and empty traces. -/
def emptyWorld : World :=
  { store := emptyState, engineCalls := [], remotePosts := [],
    saveAttempts := [], localCache := [], autoSaveOn := false }

/-- A session playing `bookAB`'s first segment at 200/1000ms. -/
def playingWorld : World :=
  { emptyWorld with
    store :=
      { emptyState with
        sound := some soundA, isPlaying := true, currentBook := some bookAB,
        currentPosition := 200, duration := 1000 },
    autoSaveOn := true }

/-- A session paused on `bookAB`'s first segment. -/
def pausedWorld : World :=
  { playingWorld with
    store :=
      { playingWorld.store with
        sound := some { soundA with playing := false }, isPlaying := false } }

/-- A session at the end of `bookAB`'s last segment, sound still loaded. -/
def lastSegWorld : World :=
  { emptyWorld with
    store :=
      { emptyState with
        sound := some soundB, isPlaying := true,
        currentBook := some bookABlast,
        currentPosition := 500, duration := 500 },
    autoSaveOn := true }

/-- A session with a pending delay timer (and, as the code permits, a
still-loaded playing sound). -/
def delayWorld : World :=
  { playingWorld with
    store :=
      { playingWorld.store with
        delayTimeoutId := some 7, isDelayActive := true,
        delayStartTime := some 123 } }

/-! ## C8: relative seek clamps -/

/-- C8: `seek` (the source's `seekRelative`) issues the engine seek with
exactly `clamp(currentPosition + delta, 0, duration)` whenever a sound is
loaded, and moves the sound to that clamped position. -/
theorem c8_seek_relative_clamps (w : World) (delta : Int) (s : Sound)
    (hs : w.store.sound = some s) :
    (seek w delta).engineCalls =
      EngineCall.seek (clampInt (w.store.currentPosition + delta) 0 w.store.duration)
        :: w.engineCalls ∧
    (seek w delta).store.sound =
      some { s with
              position := clampInt (w.store.currentPosition + delta) 0 w.store.duration } := by
  simp [seek, hs, clampInt]

/-- C8 witness: with `positionMs = 200`, `durationMs = 1000`,
`seek (+999999)` issues an engine seek for exactly 1000. -/
theorem c8_seek_relative_clamps_witness :
    (seek playingWorld 999999).engineCalls =
      EngineCall.seek 1000 :: playingWorld.engineCalls := by
  have h := (c8_seek_relative_clamps playingWorld 999999 soundA (by decide)).1
  rw [h]
  decide

/-! ## C7: absolute seek does not clamp -/

/-- C7 counterexample: `seekTo 5000` on a session whose current segment
has `durationMs = 1000` issues an engine seek for 5000, not the claimed
`clamp(5000, 0, 1000) = 1000`. -/
theorem c7_seek_absolute_cex :
    (seekTo playingWorld 5000).engineCalls =
      EngineCall.seek 5000 :: playingWorld.engineCalls ∧
    playingWorld.store.duration = 1000 ∧
    clampInt 5000 0 1000 = 1000 := by
  refine ⟨?_, by decide, by decide⟩
  decide

/-- C7 (amended): `seekTo` (the source's `seekAbsolute`) passes the
requested position to the engine unclamped — values below 0 or beyond the
current segment's duration are issued as-is — whenever a sound is loaded. -/
theorem c7_seek_absolute_amended (w : World) (p : Int) (s : Sound)
    (hs : w.store.sound = some s) :
    (seekTo w p).engineCalls = EngineCall.seek p :: w.engineCalls ∧
    (seekTo w p).store.sound = some { s with position := p } := by
  simp [seekTo, hs]

/-- C7 witness: a below-zero request, `seekTo (-50)`, is issued as-is. -/
theorem c7_seek_absolute_witness :
    (seekTo playingWorld (-50)).engineCalls =
      EngineCall.seek (-50) :: playingWorld.engineCalls := by
  exact (c7_seek_absolute_amended playingWorld (-50) soundA (by decide)).1

/-! ## C1: no stale-load discard -/

/-- The world suspended inside the load of `bookAB` (`bookX`). -/
def staleW1 : World := (loadStart emptyWorld bookAB).1

/-- The world after the load of `bookY` has also started, while the load
of `bookAB` is still pending. -/
def staleW2 : World := (loadStart staleW1 bookY).1

/-- C1 counterexample: `open(bookX)` is issued (the `bookAB` load starts
and suspends at `createAsync`), then `open(bookY)` is issued before it
resolves; when the `bookAB` load then resolves, it DOES mutate
SessionState — `currentBook` flips from `none` to `some bookAB` — because
the source has no generation stamp at all. -/
theorem c1_stale_load_cex :
    (loadResolve staleW2 bookAB fileA 0).store ≠ staleW2.store ∧
    (loadResolve staleW2 bookAB fileA 0).store.currentBook = some bookAB ∧
    staleW2.store.currentBook = none := by
  refine ⟨?_, by decide, by decide⟩
  decide

/-- C1 (amended): stale load results are not discarded: with `open(bookX)`
suspended at its `createAsync` and `open(bookY)` started afterwards (both
loads pending), the eventual resolution of the `bookX` load applies its
result unconditionally — it installs `bookX` as the current book, stores
and plays `bookX`'s newly created sound, and sets `isPlaying` —
so the last load to resolve wins; no generation check exists. -/
theorem c1_stale_load_amended (w wX wY : World) (bX bY : Book)
    (fX fY : AudioFile) (p : Int)
    (hX : loadStart w bX = (wX, some fX))
    (hY : loadStart wX bY = (wY, some fY)) :
    (loadResolve wY bX fX p).store.currentBook = some bX ∧
    (loadResolve wY bX fX p).store.sound =
      some { uri := fX.uri, position := p, duration := fX.duration,
             playing := true, loaded := true } ∧
    (loadResolve wY bX fX p).store.isPlaying = true := by
  simp [loadResolve]

/-- C1 witness: the amended theorem applied to the concrete
`bookAB`/`bookY` interleaving. -/
theorem c1_stale_load_witness :
    (loadResolve staleW2 bookAB fileA 0).store.currentBook = some bookAB ∧
    (loadResolve staleW2 bookAB fileA 0).store.sound =
      some { uri := fileA.uri, position := 0, duration := fileA.duration,
             playing := true, loaded := true } ∧
    (loadResolve staleW2 bookAB fileA 0).store.isPlaying = true := by
  exact c1_stale_load_amended emptyWorld staleW1 staleW2 bookAB bookY fileA fileC 0
    (by decide) (by decide)

/-! ## C2: the local progress write depends on remote success -/

/-- C2 counterexample: `saveProgress` on an active session whose remote
POST fails (`remoteOk = false`) writes nothing to the local cache — the
`AsyncStorage.setItem` sits after the `axios.post` in the same `try`
block — even though the claim requires the local record to be written
regardless of remote outcome. -/
theorem c2_local_save_cex :
    playingWorld.store.currentBook = some bookAB ∧
    (saveProgress playingWorld false true 999).localCache = [] ∧
    (saveProgress playingWorld true true 999).localCache =
      [("book_progress_b1", { position := 200, fileIndex := 0, timestamp := 999 })] := by
  refine ⟨by decide, ?_, ?_⟩ <;> decide

/-- C2 (amended): the local cache record is written only when the remote
write succeeds: when the remote POST fails, `saveProgress` changes
nothing except recording the attempt (the error is only logged); when
both tiers succeed on an active book, the `book_progress_{bookId}` record
is written. -/
theorem c2_local_save_amended (w : World) (lo : Bool) (now : Int) :
    (saveProgress w false lo now).localCache = w.localCache ∧
    (saveProgress w false lo now).store = w.store ∧
    (∀ b, w.store.currentBook = some b →
      (saveProgress w true true now).localCache =
        ("book_progress_" ++ b.id,
          { position := w.store.currentPosition, fileIndex := b.currentFileIndex,
            timestamp := now }) :: w.localCache) := by
  refine ⟨?_, ?_, ?_⟩
  · cases hb : w.store.currentBook <;> simp [saveProgress, hb]
  · cases hb : w.store.currentBook <;> simp [saveProgress, hb]
  · intro b hb
    simp [saveProgress, hb]

/-- C2 witness: the amended theorem at the concrete playing session. -/
theorem c2_local_save_witness :
    (saveProgress playingWorld false true 999).localCache = playingWorld.localCache ∧
    (saveProgress playingWorld true true 999).localCache =
      ("book_progress_" ++ bookAB.id,
        { position := playingWorld.store.currentPosition,
          fileIndex := bookAB.currentFileIndex,
          timestamp := 999 }) :: playingWorld.localCache := by
  have h := c2_local_save_amended playingWorld true 999
  exact ⟨h.1, h.2.2 bookAB (by decide)⟩

/-! ## C3: progress load never consults the local cache -/

/-- The claim C3 as stated: were `loadProgress` to fall back to the local
cache, then whenever the remote read fails and the cache holds a record
for the book, the result would be present (the local record), not the
sentinel absence. -/
def loadProgressFallsBackToCache : Prop :=
  ∀ (cache : List (String × LocalProgress)) (bookId : String) (r : LocalProgress),
    cache.lookup ("book_progress_" ++ bookId) = some r →
    (loadProgress (Except.error ())).isSome

/-- C3 counterexample: `loadProgress` returns `null` on any remote
failure even when the local cache holds a record for the book — the
source's `loadProgress` never reads `AsyncStorage` at all. -/
theorem c3_load_fallback_cex : ¬ loadProgressFallsBackToCache := by
  intro h
  have hr := h [("book_progress_b1", { position := 200, fileIndex := 0, timestamp := 9 })]
    bookAB.id { position := 200, fileIndex := 0, timestamp := 9 } (by decide)
  simp [loadProgress] at hr

/-- C3 (amended): `loadProgress` attempts the remote read and returns its
payload on success; on any remote failure (including an absent record,
which surfaces as a thrown 404) it returns the sentinel `null` without
consulting the local cache; it never raises to the caller (it is total). -/
theorem c3_load_fallback_amended :
    loadProgress (Except.error ()) = none ∧
    (∀ d : ProgressData, loadProgress (Except.ok d) = some d) := by
  exact ⟨rfl, fun d => rfl⟩

/-! ## C4: scheduling a delay does not stop playback -/

/-- C4 counterexample: calling `startDelayedPlayback` on a session that is
actively playing leaves the sound loaded and playing and `isPlaying`
true while `isDelayActive` becomes true — it neither unloads the engine
nor clears `isPlaying`, so invariant I2 is violated immediately. -/
theorem c4_delay_exclusion_cex :
    playingWorld.store.isPlaying = true ∧
    (startDelayedPlayback playingWorld bookAB 5 1000 1).store.isDelayActive = true ∧
    (startDelayedPlayback playingWorld bookAB 5 1000 1).store.isPlaying = true ∧
    (startDelayedPlayback playingWorld bookAB 5 1000 1).store.sound = some soundA ∧
    soundA.loaded = true ∧ soundA.playing = true := by
  refine ⟨by decide, ?_, ?_, ?_, by decide, by decide⟩ <;> decide

/-- C4 (amended): `startDelayedPlayback` replaces any existing timer and
arms a fresh one (`delayTimeoutId := newId`), sets `isDelayActive := true`
and `delayStartTime := now`, but leaves the loaded sound, `isPlaying`, and
the engine-call trace untouched: delayed start and active playback are
not made mutually exclusive by the scheduling path. -/
theorem c4_delay_exclusion_amended (w : World) (book : Book)
    (delayMinutes now : Int) (newId : Nat) :
    (startDelayedPlayback w book delayMinutes now newId).store.isDelayActive = true ∧
    (startDelayedPlayback w book delayMinutes now newId).store.delayStartTime = some now ∧
    (startDelayedPlayback w book delayMinutes now newId).store.delayTimeoutId = some newId ∧
    (startDelayedPlayback w book delayMinutes now newId).store.sound = w.store.sound ∧
    (startDelayedPlayback w book delayMinutes now newId).store.isPlaying = w.store.isPlaying ∧
    (startDelayedPlayback w book delayMinutes now newId).engineCalls = w.engineCalls := by
  unfold startDelayedPlayback
  by_cases h : w.store.delayTimeoutId.isSome <;> simp [h]

/-! ## C5: segment advance -/

/-- C5 counterexample: when `finished` fires on the last segment the
engine resource is NOT unloaded: the sound of the finished segment stays
in the store, still loaded, contrary to the claimed "no resource is
loaded" terminal state. -/
theorem c5_segment_advance_cex :
    (handleTrackEnd lastSegWorld true true 999).store.sound = some soundB ∧
    soundB.loaded = true ∧
    ∀ c, c ∈ (handleTrackEnd lastSegWorld true true 999).engineCalls →
      c ≠ EngineCall.unload := by
  refine ⟨?_, by decide, ?_⟩
  · decide
  · decide

/-- C5 (amended): for an active book, a `finished` signal on a non-last
segment increments the file index, loads the next segment's resource at
position 0 and plays it (`isPlaying := true`); on the last segment it
sets `isPlaying := false`, issues a final progress save attempt, keeps
`activeBook` at the last index — and the finished segment's resource
remains in the store unchanged (it is not unloaded). -/
theorem c5_segment_advance_amended (w : World) (book : Book) (f : AudioFile)
    (ro lo : Bool) (now : Int)
    (hb : w.store.currentBook = some book) :
    ((book.currentFileIndex : Int) < (book.files.length : Int) - 1 →
      book.files[book.currentFileIndex + 1]? = some f →
      (handleTrackEnd w ro lo now).store.currentBook =
        some { book with currentFileIndex := book.currentFileIndex + 1 } ∧
      (handleTrackEnd w ro lo now).store.sound =
        some { uri := f.uri, position := 0, duration := f.duration,
               playing := true, loaded := true } ∧
      (handleTrackEnd w ro lo now).store.isPlaying = true) ∧
    (¬ (book.currentFileIndex : Int) < (book.files.length : Int) - 1 →
      (handleTrackEnd w ro lo now).store.isPlaying = false ∧
      (handleTrackEnd w ro lo now).saveAttempts =
        { book_id := book.id, position := w.store.currentPosition,
          duration := w.store.duration,
          current_file_index := book.currentFileIndex } :: w.saveAttempts ∧
      (handleTrackEnd w ro lo now).store.sound = w.store.sound ∧
      (handleTrackEnd w ro lo now).store.currentBook = some book) := by
  constructor
  · intro hlt hf
    simp only [handleTrackEnd, hb, if_pos hlt, loadAndPlayAudio, loadStart]
    cases hs : w.store.sound <;> simp [hs, hf, loadResolve]
  · intro hge
    simp [handleTrackEnd, hb, if_neg hge, saveProgress]
    cases ro <;> cases lo <;> simp

/-- C5 witness: the amended theorem at the concrete two-segment book
`[A(dur=1000), B(dur=500)]`: a finish at segment 0 advances to segment 1
at position 0 and keeps playing; a finish at segment 1 stops playing,
records the save attempt, and retains the book at index 1. -/
theorem c5_segment_advance_witness :
    ((handleTrackEnd playingWorld true true 999).store.currentBook =
        some { bookAB with currentFileIndex := 1 } ∧
      (handleTrackEnd playingWorld true true 999).store.sound =
        some { uri := fileB.uri, position := 0, duration := fileB.duration,
               playing := true, loaded := true } ∧
      (handleTrackEnd playingWorld true true 999).store.isPlaying = true) ∧
    ((handleTrackEnd lastSegWorld true true 999).store.isPlaying = false ∧
      (handleTrackEnd lastSegWorld true true 999).saveAttempts =
        { book_id := bookABlast.id, position := lastSegWorld.store.currentPosition,
          duration := lastSegWorld.store.duration,
          current_file_index := bookABlast.currentFileIndex }
          :: lastSegWorld.saveAttempts ∧
      (handleTrackEnd lastSegWorld true true 999).store.sound =
        lastSegWorld.store.sound ∧
      (handleTrackEnd lastSegWorld true true 999).store.currentBook =
        some bookABlast) := by
  constructor
  · exact (c5_segment_advance_amended playingWorld bookAB fileB true true 999
      (by decide)).1 (by decide) (by decide)
  · exact (c5_segment_advance_amended lastSegWorld bookABlast fileB true true 999
      (by decide)).2 (by decide)

/-! ## C6: play/pause toggle -/

/-- C6: `handlePlayPause` (the source's `togglePlayPause`): while a delay
is pending it cancels the delay and issues no engine call; with no delay
and no loaded sound it is a no-op; with a loaded sound it pauses the
engine and attempts a progress save when playing, or resumes the engine
when paused. -/
theorem c6_toggle_playpause (w : World) (ro lo : Bool) (now : Int) :
    (w.store.isDelayActive = true →
      (handlePlayPause w ro lo now).engineCalls = w.engineCalls ∧
      (handlePlayPause w ro lo now).store.isDelayActive = false ∧
      (handlePlayPause w ro lo now).store.delayTimeoutId = none ∧
      (handlePlayPause w ro lo now).store.delayStartTime = none) ∧
    (w.store.isDelayActive = false → w.store.sound = none →
      handlePlayPause w ro lo now = w) ∧
    (∀ s b, w.store.isDelayActive = false → w.store.sound = some s →
      w.store.isPlaying = true → w.store.currentBook = some b →
      (handlePlayPause w ro lo now).engineCalls = EngineCall.pause :: w.engineCalls ∧
      (handlePlayPause w ro lo now).store.sound = some { s with playing := false } ∧
      (handlePlayPause w ro lo now).saveAttempts =
        { book_id := b.id, position := w.store.currentPosition,
          duration := w.store.duration,
          current_file_index := b.currentFileIndex } :: w.saveAttempts) ∧
    (∀ s, w.store.isDelayActive = false → w.store.sound = some s →
      w.store.isPlaying = false →
      (handlePlayPause w ro lo now).engineCalls = EngineCall.play :: w.engineCalls ∧
      (handlePlayPause w ro lo now).store.sound = some { s with playing := true } ∧
      (handlePlayPause w ro lo now).saveAttempts = w.saveAttempts) := by
  refine ⟨?_, ?_, ?_, ?_⟩
  · intro hd
    simp only [handlePlayPause, hd, if_pos, cancelDelayedPlayback]
    cases ht : w.store.delayTimeoutId <;> simp [ht]
  · intro hd hs
    simp [handlePlayPause, hd, playPause, hs]
  · intro s b hd hs hp hb
    cases ro <;> cases lo <;>
      simp [handlePlayPause, hd, playPause, hs, hp, saveProgress, hb]
  · intro s hd hs hp
    simp [handlePlayPause, hd, playPause, hs, hp]

/-- C6 witness: the toggle at four concrete states: a pending delay is
cancelled with no engine call; the empty session is untouched; a playing
session gets a pause call and a save attempt; a paused session gets a
play call. -/
theorem c6_toggle_playpause_witness :
    ((handlePlayPause delayWorld true true 9).engineCalls = delayWorld.engineCalls ∧
      (handlePlayPause delayWorld true true 9).store.isDelayActive = false ∧
      (handlePlayPause delayWorld true true 9).store.delayTimeoutId = none ∧
      (handlePlayPause delayWorld true true 9).store.delayStartTime = none) ∧
    handlePlayPause emptyWorld true true 9 = emptyWorld ∧
    ((handlePlayPause playingWorld true true 9).engineCalls =
        EngineCall.pause :: playingWorld.engineCalls ∧
      (handlePlayPause playingWorld true true 9).store.sound =
        some { soundA with playing := false } ∧
      (handlePlayPause playingWorld true true 9).saveAttempts =
        { book_id := bookAB.id, position := playingWorld.store.currentPosition,
          duration := playingWorld.store.duration,
          current_file_index := bookAB.currentFileIndex }
          :: playingWorld.saveAttempts) ∧
    ((handlePlayPause pausedWorld true true 9).engineCalls =
        EngineCall.play :: pausedWorld.engineCalls ∧
      (handlePlayPause pausedWorld true true 9).store.sound = some soundA ∧
      (handlePlayPause pausedWorld true true 9).saveAttempts =
        pausedWorld.saveAttempts) := by
  refine ⟨?_, ?_, ?_, ?_⟩
  · exact (c6_toggle_playpause delayWorld true true 9).1 (by decide)
  · exact (c6_toggle_playpause emptyWorld true true 9).2.1 (by decide) (by decide)
  · exact (c6_toggle_playpause playingWorld true true 9).2.2.1 soundA bookAB
      (by decide) (by decide) (by decide) (by decide)
  · have h := (c6_toggle_playpause pausedWorld true true 9).2.2.2
      { soundA with playing := false } (by decide) (by decide) (by decide)
    refine ⟨h.1, ?_, h.2.2⟩
    rw [h.2.1]
    decide

/-! ## Helper lemmas about the teardown path -/

/-- `saveProgress` never changes the store itself. -/
theorem saveProgress_store (v : World) (ro lo : Bool) (now : Int) :
    (saveProgress v ro lo now).store = v.store := by
  cases hb : v.store.currentBook <;> cases ro <;> cases lo <;>
    simp [saveProgress, hb]

/-- `saveProgress` issues no engine call. -/
theorem saveProgress_engineCalls (v : World) (ro lo : Bool) (now : Int) :
    (saveProgress v ro lo now).engineCalls = v.engineCalls := by
  cases hb : v.store.currentBook <;> cases ro <;> cases lo <;>
    simp [saveProgress, hb]

/-- `saveProgress` does not touch the autosave interval. -/
theorem saveProgress_autoSaveOn (v : World) (ro lo : Bool) (now : Int) :
    (saveProgress v ro lo now).autoSaveOn = v.autoSaveOn := by
  cases hb : v.store.currentBook <;> cases ro <;> cases lo <;>
    simp [saveProgress, hb]

/-- With an active book, `saveProgress` always records the POST attempt. -/
theorem saveProgress_attempt (v : World) (ro lo : Bool) (now : Int) (b : Book)
    (hb : v.store.currentBook = some b) :
    (saveProgress v ro lo now).saveAttempts =
      { book_id := b.id, position := v.store.currentPosition,
        duration := v.store.duration,
        current_file_index := b.currentFileIndex } :: v.saveAttempts := by
  cases ro <;> cases lo <;> simp [saveProgress, hb]

/-- With no active book, `saveProgress` is the identity. -/
theorem saveProgress_noBook (v : World) (ro lo : Bool) (now : Int)
    (hb : v.store.currentBook = none) :
    saveProgress v ro lo now = v := by
  simp [saveProgress, hb]

/-- The fields the store's `cleanup` action resets or retains. -/
theorem storeCleanup_fields (v : World) :
    (storeCleanup v).store.sound = none ∧
    (storeCleanup v).store.isPlaying = false ∧
    (storeCleanup v).store.delayTimeoutId = none ∧
    (storeCleanup v).store.isDelayActive = false ∧
    (storeCleanup v).store.delayStartTime = none ∧
    (storeCleanup v).store.currentBook = v.store.currentBook ∧
    (storeCleanup v).store.currentPosition = v.store.currentPosition ∧
    (storeCleanup v).store.duration = v.store.duration ∧
    (storeCleanup v).autoSaveOn = v.autoSaveOn ∧
    (storeCleanup v).saveAttempts = v.saveAttempts := by
  cases hs : v.store.sound <;> simp [storeCleanup, hs]

/-- The store's `cleanup` action unloads a loaded sound. -/
theorem storeCleanup_unloads (v : World) (s : Sound)
    (hs : v.store.sound = some s) :
    (storeCleanup v).engineCalls = EngineCall.unload :: v.engineCalls := by
  simp [storeCleanup, hs]

/-- `stopAutoSave` only clears the interval flag. -/
theorem stopAutoSave_fields (v : World) :
    (stopAutoSave v).store = v.store ∧
    (stopAutoSave v).autoSaveOn = false ∧
    (stopAutoSave v).engineCalls = v.engineCalls ∧
    (stopAutoSave v).saveAttempts = v.saveAttempts := by
  by_cases ha : v.autoSaveOn <;> simp [stopAutoSave, ha]

/-! ## C9: teardown retains the active book -/

/-- C9 counterexample: after `cleanup` on an active session the store
still holds the active book (and its position/duration fields) —
SessionState is not cleared to empty. -/
theorem c9_teardown_cex :
    (cleanup playingWorld true true 999).store.currentBook = some bookAB ∧
    (cleanup playingWorld true true 999).store.currentPosition = 200 ∧
    (cleanup playingWorld true true 999).store.duration = 1000 := by
  refine ⟨?_, ?_, ?_⟩ <;> decide

/-- C9 (amended): `cleanup` stops the autosave loop, attempts one final
progress save when a book is active, unloads the engine resource if one
is loaded, clears the sound, playing flag and all delay fields — but it
retains `currentBook` (with position and duration) rather than clearing
SessionState to empty; with no session at all it is a no-op. -/
theorem c9_teardown_amended (w : World) (ro lo : Bool) (now : Int) :
    (cleanup w ro lo now).autoSaveOn = false ∧
    (cleanup w ro lo now).store.sound = none ∧
    (cleanup w ro lo now).store.isPlaying = false ∧
    (cleanup w ro lo now).store.delayTimeoutId = none ∧
    (cleanup w ro lo now).store.isDelayActive = false ∧
    (cleanup w ro lo now).store.delayStartTime = none ∧
    (cleanup w ro lo now).store.currentBook = w.store.currentBook ∧
    (cleanup w ro lo now).store.currentPosition = w.store.currentPosition ∧
    (cleanup w ro lo now).store.duration = w.store.duration ∧
    (∀ b, w.store.currentBook = some b →
      (cleanup w ro lo now).saveAttempts =
        { book_id := b.id, position := w.store.currentPosition,
          duration := w.store.duration,
          current_file_index := b.currentFileIndex } :: w.saveAttempts) ∧
    (∀ s, w.store.sound = some s →
      (cleanup w ro lo now).engineCalls = EngineCall.unload :: w.engineCalls) ∧
    (w.store.currentBook = none → w.store.sound = none →
      w.store.isPlaying = false → w.store.delayTimeoutId = none →
      w.store.isDelayActive = false → w.store.delayStartTime = none →
      w.autoSaveOn = false →
      cleanup w ro lo now = w) := by
  have hm := storeCleanup_fields (saveProgress (stopAutoSave w) ro lo now)
  have hst := stopAutoSave_fields w
  refine ⟨?_, hm.1, hm.2.1, hm.2.2.1, hm.2.2.2.1, hm.2.2.2.2.1,
    ?_, ?_, ?_, ?_, ?_, ?_⟩
  · show (storeCleanup _).autoSaveOn = false
    rw [hm.2.2.2.2.2.2.2.2.1, saveProgress_autoSaveOn, hst.2.1]
  · show (storeCleanup _).store.currentBook = _
    rw [hm.2.2.2.2.2.1, saveProgress_store, hst.1]
  · show (storeCleanup _).store.currentPosition = _
    rw [hm.2.2.2.2.2.2.1, saveProgress_store, hst.1]
  · show (storeCleanup _).store.duration = _
    rw [hm.2.2.2.2.2.2.2.1, saveProgress_store, hst.1]
  · intro b hb
    show (storeCleanup _).saveAttempts = _
    rw [hm.2.2.2.2.2.2.2.2.2,
      saveProgress_attempt (stopAutoSave w) ro lo now b (by rw [hst.1]; exact hb),
      hst.1, hst.2.2.2]
  · intro s hs
    show (storeCleanup _).engineCalls = _
    rw [storeCleanup_unloads _ s (by rw [saveProgress_store, hst.1]; exact hs),
      saveProgress_engineCalls, hst.2.2.1]
  · intro hb hs hp ht hd hdst ha
    show storeCleanup _ = w
    have h0 : stopAutoSave w = w := by simp [stopAutoSave, ha]
    rw [h0, saveProgress_noBook w ro lo now hb]
    cases w with
    | mk st ec rp sa lc auto =>
        cases st
        simp_all [storeCleanup]

/-- C9 witness: the amended theorem at the playing session and, for the
no-op conjunct, at the empty world. -/
theorem c9_teardown_witness :
    (cleanup playingWorld true true 999).saveAttempts =
      { book_id := bookAB.id, position := playingWorld.store.currentPosition,
        duration := playingWorld.store.duration,
        current_file_index := bookAB.currentFileIndex }
        :: playingWorld.saveAttempts ∧
    (cleanup playingWorld true true 999).engineCalls =
      EngineCall.unload :: playingWorld.engineCalls ∧
    cleanup emptyWorld true true 999 = emptyWorld := by
  refine ⟨?_, ?_, ?_⟩
  · exact (c9_teardown_amended playingWorld true true 999).2.2.2.2.2.2.2.2.2.1
      bookAB (by decide)
  · exact (c9_teardown_amended playingWorld true true 999).2.2.2.2.2.2.2.2.2.2.1
      soundA (by decide)
  · exact (c9_teardown_amended emptyWorld true true 999).2.2.2.2.2.2.2.2.2.2.2
      (by decide) (by decide) (by decide) (by decide) (by decide) (by decide)
      (by decide)

/-! ## C10: missing segment at the current index is handled safely -/

/-- C10: when a book has no file at `currentFileIndex` — in particular
every book produced by `FileService.getAllBooks`, whose `files` array is
empty — `loadAndPlayAudio` returns early: no sound is created or played
(the only possible engine call is the unload of a previously loaded
sound), the store's book and playing flag are untouched, and the
`finally` block leaves `isLoading = false`. -/
theorem c10_missing_file_safe (w : World) (book : Book) (p : Int)
    (hf : book.files[book.currentFileIndex]? = none) :
    ((loadAndPlayAudio w book p).store.isLoading = false ∧
      (loadAndPlayAudio w book p).store.currentBook = w.store.currentBook ∧
      (loadAndPlayAudio w book p).store.isPlaying = w.store.isPlaying ∧
      (loadAndPlayAudio w book p).store.sound = w.store.sound.map unloadSound ∧
      (loadAndPlayAudio w book p).engineCalls =
        (match w.store.sound with
          | some _ => EngineCall.unload :: w.engineCalls
          | none => w.engineCalls)) ∧
    (∀ rows b, b ∈ getAllBooks (Except.ok rows) →
      b.files[b.currentFileIndex]? = none) := by
  constructor
  · cases hs : w.store.sound <;>
      simp [loadAndPlayAudio, loadStart, hs, hf]
  · intro rows b hb
    simp only [getAllBooks, List.mem_map] at hb
    obtain ⟨row, _, hrow⟩ := hb
    rw [← hrow]
    rfl

/-- C10 witness: loading a backend-listed book (empty `files`,
`currentFileIndex = 0`) from the empty world creates no sound, issues no
engine call, and ends with `isLoading = false`. -/
theorem c10_missing_file_safe_witness :
    (loadAndPlayAudio emptyWorld (getAllBooks (Except.ok
        [{ id := "b3", title := "Remote", path := "p3", duration := 100,
           is_series := false, series_name := none }])).headI 0).store.isLoading
      = false ∧
    (loadAndPlayAudio emptyWorld (getAllBooks (Except.ok
        [{ id := "b3", title := "Remote", path := "p3", duration := 100,
           is_series := false, series_name := none }])).headI 0).store.sound
      = none := by
  have h := (c10_missing_file_safe emptyWorld (getAllBooks (Except.ok
      [{ id := "b3", title := "Remote", path := "p3", duration := 100,
         is_series := false, series_name := none }])).headI 0 (by decide)).1
  exact ⟨h.1, by rw [h.2.2.2.1]; rfl⟩

end AudioApp
